import Mathlib

/-!
# A shallow embedding of the tcp-port-used repository

The repository contains three generations of the module:

* `index.js` — the earliest version: a bind-based `check(port)` only.
* `src/unnamed/part_003` — an intermediate version: a bind-based `check`,
  an interval-driven `waitUntilFree` (bind probe) and `waitUntilUsed`
  (connect probe).
* `src/unnamed/part_002` — the host-aware version: a connect-based
  `check(port, host)`, `waitUntilFreeOnHost` / `waitUntilUsedOnHost`
  and the no-host wrappers `waitUntilFree` / `waitUntilUsed` that
  delegate to the OnHost functions with host `"127.0.0.1"`.

JavaScript values relevant to the API are modelled by `JSVal`; the Q
deferred/promise is modelled by `Option (Settled α)` (`none` = pending)
with the single-assignment latch `settle` (a Q deferred resolves or
rejects at most once; later attempts are no-ops).  Socket and timer
activity is made visible as lists of `Effect`s, and each polling loop is
embedded as a step function over an explicit session state, driven by
the events (timer firings, probe completions) that the Node event loop
can deliver.
-/

namespace TPU

/-- JavaScript values that can reach the API surface: `undefined`,
numbers (the tests of the module use integers only) and strings. -/
inductive JSVal where
  | undef
  | num (n : Int)
  | str (s : String)
  deriving DecidableEq, Repr

/-- The function `util.inspect`, restricted to the values of `JSVal`:
numbers print bare, strings print single-quoted, `undefined` prints as
itself.  This matches the test expectations of the repository
(invalid port: -20 / invalid port: (quoted) hello /
invalid port: undefined). -/
def inspect : JSVal → String
  | .undef => "undefined"
  | .num n => toString n
  | .str s => "'" ++ s ++ "'"

/-- Plain JavaScript string coercion, used by the `index.js` message
concatenation `"Invalid port: " + port`: strings are not quoted. -/
def jsToString : JSVal → String
  | .undef => "undefined"
  | .num n => toString n
  | .str s => s

/-- The predicate `is.port` from the is2 library: an integer in
[0, 65535]. -/
def isPort : JSVal → Bool
  | .num n => 0 ≤ n && n ≤ 65535
  | _ => false

/-- The predicate `is.positiveInt` from the is2 library. -/
def isPositiveInt : JSVal → Bool
  | .num n => 0 < n
  | _ => false

/-- The predicate `is.hostAddress` from the is2 library: a DNS name or
IP address; modelled as: any string counts as a host address, nothing
else does. -/
def isHostAddress : JSVal → Bool
  | .str _ => true
  | _ => false

/-- Host normalization shared by the part_002 functions: an invalid or
absent host is replaced by `"127.0.0.1"`. -/
def resolveHost (host : JSVal) : String :=
  match host with
  | .str s => s
  | _ => "127.0.0.1"

/-- A Node system error, identified by its `code` property
(e.g. ECONNREFUSED, EADDRINUSE). -/
structure NodeErr where
  code : String
  deriving DecidableEq, Repr

/-- An error value a promise can be rejected with: either
`new Error(message)` built by the module itself, or a system error
delivered by a socket/server and propagated verbatim. -/
inductive Err where
  | msg (m : String)
  | sys (e : NodeErr)
  deriving DecidableEq, Repr

/-- The settled state of a Q promise. -/
inductive Settled (α : Type) where
  | resolved (v : α)
  | rejected (e : Err)
  deriving DecidableEq, Repr

/-- A Q deferred/promise: `none` while pending. -/
abbrev Deferred (α : Type) := Option (Settled α)

/-- The Q single-assignment latch: a deferred settles at most once;
resolving or rejecting an already-settled deferred is a no-op. -/
def settle {α : Type} (s : Settled α) : Deferred α → Deferred α
  | none => some s
  | some t => some t

theorem settle_of_some {α : Type} (s t : Settled α) :
    settle s (some t) = some t := rfl

theorem settle_isSome {α : Type} (s : Settled α) (d : Deferred α) :
    (settle s d).isSome = true := by
  cases d <;> rfl

/-- Externally visible side effects of the embedded code: socket
operations, listener bookkeeping and the asynchronous delivery point of
a Q settlement (then-callbacks run strictly after the synchronous turn
that settled the deferred). -/
inductive Effect where
  | connectTo (host : String) (port : Int)
  | listenOn (port : JSVal)
  | closeSocket
  | removeListeners
  | deliverSettlement
  deriving DecidableEq, Repr

/-- Which single-shot probe a polling loop is built on. -/
inductive ProbeKind where
  | connectProbe
  | bindProbe
  deriving DecidableEq, Repr

/-- part_002 line 21: `var TIMEOUT = 2000;` -/
def TIMEOUT : Int := 2000

/-- part_002 line 22: `var RETRYTIME = 200;` -/
def RETRYTIME : Int := 200

/-- How the single outbound connection attempt of the connect-based
probe turns out in the environment. -/
inductive ConnectOutcome where
  | connected
  | errored (e : NodeErr)
  deriving DecidableEq, Repr

/-- How a bind/listen attempt of the bind-based probe turns out. -/
inductive BindOutcome where
  | listening
  | errored (e : NodeErr)
  deriving DecidableEq, Repr

end TPU

namespace TPU.P2

open TPU

/-- part_002 `check(port, host)` (lines 43–93): validate the port
(rejecting with `"invalid port: " + util.inspect(port)` and returning
early), default the host, create a socket, attach `connect`/`error`
handlers and connect.  On connect: resolve `true`, then `cleanUp()`
(which only removes the two listeners).  On error: `ECONNREFUSED`
resolves `false`, any other error rejects with that same error value;
in every branch `cleanUp()` removes the listeners.  No branch ever
closes or destroys the socket.  The effect list records, in program
order, what the code does in the handler turn; `deliverSettlement` is
the later tick on which Q runs the then-callbacks of the caller. -/
def check (port host : JSVal) (conn : ConnectOutcome) :
    Deferred Bool × List Effect :=
  if isPort port = false then
    (some (.rejected (.msg ("invalid port: " ++ inspect port))),
     [.deliverSettlement])
  else
    let h := if isHostAddress host then resolveHost host else "127.0.0.1"
    let p : Int := match port with | .num n => n | _ => 0
    match conn with
    | .connected =>
        (some (.resolved true),
         [.connectTo h p, .removeListeners, .deliverSettlement])
    | .errored e =>
        if e.code = "ECONNREFUSED" then
          (some (.resolved false),
           [.connectTo h p, .removeListeners, .deliverSettlement])
        else
          (some (.rejected (.sys e)),
           [.connectTo h p, .removeListeners, .deliverSettlement])

example : (check (.num 44202) (.str "127.0.0.1") .connected).1
    = some (.resolved true) := by decide

example : (check (.num 44201) .undef (.errored ⟨"ECONNREFUSED"⟩)).1
    = some (.resolved false) := by decide

example : (check (.str "hello") .undef .connected).1
    = some (.rejected (.msg "invalid port: 'hello'")) := by decide

/-- part_002 `waitUntilFreeOnHost`, retry/timeout normalization
(lines 131–139).  The source tests `is.positiveInt(timeOutMs)` twice:
the first `if` assigns `timeOutMs = RETRYTIME` (while its debug message
announces "set timeout to default "+TIMEOUT+"ms"), and the second `if`
re-tests the now-positive `timeOutMs` (so `TIMEOUT` is never assigned;
its debug message announces "set retryTime to default "+RETRYTIME+"ms").
`retryTimeMs` is never normalized. -/
def normalizeFreeOnHost (retryTimeMs timeOutMs : JSVal) : JSVal × JSVal :=
  let timeOutMs1 :=
    if isPositiveInt timeOutMs then timeOutMs else JSVal.num RETRYTIME
  let timeOutMs2 :=
    if isPositiveInt timeOutMs1 then timeOutMs1 else JSVal.num TIMEOUT
  (retryTimeMs, timeOutMs2)

/-- part_002 `waitUntilUsedOnHost`, retry/timeout normalization
(lines 240–248): `retryTimeMs` defaults to `RETRYTIME`, `timeOutMs`
defaults to `TIMEOUT`, independently. -/
def normalizeUsedOnHost (retryTimeMs timeOutMs : JSVal) : JSVal × JSVal :=
  let r := if isPositiveInt retryTimeMs then retryTimeMs else JSVal.num RETRYTIME
  let t := if isPositiveInt timeOutMs then timeOutMs else JSVal.num TIMEOUT
  (r, t)

/-- The session state of a part_002 polling loop
(`waitUntilFreeOnHost` / `waitUntilUsedOnHost`), after validation
passed, the deadline timer was armed (line 155 / 264) and the first
`doCheck()` was issued (line 180 / 289):

* `timedout` — the `var timedout` flag;
* `dfd` — the Q deferred returned to the caller;
* `deadlineArmed` — `timeoutId` holds a live (uncleared, unfired) timer;
* `retryArmed` — `retryId` holds a live retry timer;
* `outstanding` — `check()` calls issued whose promise has not settled
  yet. -/
structure WaitState where
  timedout : Bool
  dfd : Deferred Unit
  deadlineArmed : Bool
  retryArmed : Bool
  outstanding : Nat
  deriving DecidableEq, Repr

/-- `cleanUp()` of the part_002 polling functions (lines 141–148 /
250–257): clear the deadline timer and any pending retry timer. -/
def cleanUpTimers (s : WaitState) : WaitState :=
  { s with deadlineArmed := false, retryArmed := false }

/-- The events the Node event loop can deliver to a part_002 polling
session: the deadline timer fires, the retry timer fires (running
`doCheck()` again), or the promise of an in-flight `check()` settles
(resolved with the observed in-use boolean, or rejected). -/
inductive WEvent where
  | deadline
  | retry
  | probe (r : Settled Bool)
  deriving DecidableEq, Repr

/-- One event step of the part_002 polling session.  `desired` is the
in-use value that settles the session with success: `false` for
`waitUntilFreeOnHost` (lines 157–178: `if (inUse)` schedule a retry,
`else` resolve) and `true` for `waitUntilUsedOnHost` (lines 266–287:
`if (inUse)` resolve, `else` schedule a retry).  A timer that is not
armed (already cleared by `cleanUp()`) cannot fire, and a probe cannot
complete when none is outstanding; such events leave the state
unchanged. -/
def step (desired : Bool) : WEvent → WaitState → WaitState
  | .deadline, s =>
    if s.deadlineArmed then
      -- timeoutFunc (lines 150–154): timedout = true; cleanUp(); reject.
      let s1 := cleanUpTimers { s with timedout := true }
      { s1 with dfd := settle (.rejected (.msg "timeout")) s1.dfd }
    else s
  | .retry, s =>
    if s.retryArmed then
      -- the retry timer runs doCheck(), issuing the next check().
      { s with retryArmed := false, outstanding := s.outstanding + 1 }
    else s
  | .probe r, s =>
    if s.outstanding = 0 then s
    else
      let s1 : WaitState := { s with outstanding := s.outstanding - 1 }
      if s1.timedout then
        -- `if (timedout) { return; }` — the result is discarded.
        s1
      else
        match r with
        | .resolved b =>
          if b = desired then
            let s2 := { s1 with dfd := settle (.resolved ()) s1.dfd }
            cleanUpTimers s2
          else
            { s1 with retryArmed := true }
        | .rejected e =>
          let s2 := { s1 with dfd := settle (.rejected e) s1.dfd }
          cleanUpTimers s2

/-- Session state right after a part_002 polling function returns its
promise: nothing settled, deadline armed, no retry pending, the first
`check()` in flight. -/
def initState : WaitState :=
  { timedout := false, dfd := none, deadlineArmed := true,
    retryArmed := false, outstanding := 1 }

/-- Run a part_002 session over a list of delivered events. -/
def run (desired : Bool) (es : List WEvent) (s : WaitState) : WaitState :=
  es.foldl (fun t e => step desired e t) s

theorem run_nil (desired : Bool) (s : WaitState) :
    run desired [] s = s := rfl

theorem run_cons (desired : Bool) (e : WEvent) (es : List WEvent)
    (s : WaitState) :
    run desired (e :: es) s = run desired es (step desired e s) := rfl

/-- Once the deferred is settled, no later event changes its value:
the Q latch makes every further settlement attempt a no-op. -/
theorem step_dfd_frozen (desired : Bool) (e : WEvent) (s : WaitState)
    (v : Settled Unit) (h : s.dfd = some v) :
    (step desired e s).dfd = some v := by
  cases e with
  | deadline =>
    simp only [step, cleanUpTimers]
    split <;> simp [h, settle_of_some]
  | retry =>
    simp only [step]
    split <;> simp [h]
  | probe r =>
    simp only [step]
    split
    · exact h
    · split
      · exact h
      · cases r with
        | resolved b =>
          simp only [cleanUpTimers]
          split <;> simp [h, settle_of_some]
        | rejected e' =>
          simp [cleanUpTimers, h, settle_of_some]

theorem run_dfd_frozen (desired : Bool) (es : List WEvent) (s : WaitState)
    (v : Settled Unit) (h : s.dfd = some v) :
    (run desired es s).dfd = some v := by
  induction es generalizing s with
  | nil => exact h
  | cons e es ih =>
    rw [run_cons]
    exact ih _ (step_dfd_frozen desired e s v h)

/-- The session invariant of the part_002 polling loop:

* the deadline timer stays armed until the session settles (so a
  settlement attempt is always still scheduled: no silent hang);
* at most one probe is outstanding at any time, and none is outstanding
  while a retry timer is pending (the next `check()` is only issued by
  the completion handler of the previous one, via the retry timer);
* once the `timedout` flag is set the session is settled. -/
def SessInv (s : WaitState) : Prop :=
  (s.deadlineArmed = true ∨ s.dfd.isSome = true)
  ∧ s.outstanding ≤ 1
  ∧ (s.retryArmed = true → s.outstanding = 0)
  ∧ (s.timedout = true → s.dfd.isSome = true)

instance (s : WaitState) : Decidable (SessInv s) := by
  unfold SessInv
  infer_instance

theorem step_inv (desired : Bool) (e : WEvent) (s : WaitState)
    (h : SessInv s) : SessInv (step desired e s) := by
  obtain ⟨td, d, da, ra, out⟩ := s
  obtain ⟨h1, h2, h3, h4⟩ := h
  cases e with
  | deadline =>
    cases da <;>
      simp_all [step, cleanUpTimers, SessInv, settle_isSome]
  | retry =>
    cases ra <;>
      simp_all [step, SessInv]
  | probe r =>
    cases out with
    | zero => simp_all [step, SessInv]
    | succ n =>
      have hn : n = 0 := by
        simp only [SessInv] at h2
        omega
      subst hn
      cases td with
      | true => simp_all [step, SessInv]
      | false =>
        cases r with
        | resolved b =>
          by_cases hb : b = desired <;>
            simp_all [step, cleanUpTimers, SessInv, settle_isSome]
        | rejected e' =>
          simp_all [step, cleanUpTimers, SessInv, settle_isSome]

theorem run_inv (desired : Bool) (es : List WEvent) (s : WaitState)
    (h : SessInv s) : SessInv (run desired es s) := by
  induction es generalizing s with
  | nil => exact h
  | cons e es ih =>
    rw [run_cons]
    exact ih _ (step_inv desired e s h)

theorem initState_inv : SessInv initState := by decide

/-- The configuration a part_002 polling function computes before it
enters its loop: normalized host, the (possibly buggy) normalized
retry/timeout values, the in-use value that counts as success, and
which single-shot probe the `doCheck()` of the loop invokes. -/
structure SessionCfg where
  host : String
  retryTimeMs : JSVal
  timeOutMs : JSVal
  desired : Bool
  probe : ProbeKind
  deriving DecidableEq, Repr

/-- part_002 `waitUntilFreeOnHost` (lines 114–182) up to its first
asynchronous suspension: an invalid port settles the returned promise
right away with the validation error (`.inl`); otherwise the session
starts (`.inr`) with the host defaulted, retry/timeout run through
`normalizeFreeOnHost`, success on observing not-in-use, and the
`doCheck()` loop calling the connect-based `check(port, host)`. -/
def waitUntilFreeOnHostCfg (port host retryTimeMs timeOutMs : JSVal) :
    Deferred Unit ⊕ SessionCfg :=
  if isPort port = false then
    .inl (some (.rejected (.msg ("invalid port: " ++ inspect port))))
  else
    let h := if isHostAddress host then resolveHost host else "127.0.0.1"
    let n := normalizeFreeOnHost retryTimeMs timeOutMs
    .inr { host := h, retryTimeMs := n.1, timeOutMs := n.2,
           desired := false, probe := .connectProbe }

/-- part_002 `waitUntilUsedOnHost` (lines 223–291) up to its first
asynchronous suspension; success on observing in-use, probe again the
connect-based `check(port, host)`. -/
def waitUntilUsedOnHostCfg (port host retryTimeMs timeOutMs : JSVal) :
    Deferred Unit ⊕ SessionCfg :=
  if isPort port = false then
    .inl (some (.rejected (.msg ("invalid port: " ++ inspect port))))
  else
    let h := if isHostAddress host then resolveHost host else "127.0.0.1"
    let n := normalizeUsedOnHost retryTimeMs timeOutMs
    .inr { host := h, retryTimeMs := n.1, timeOutMs := n.2,
           desired := true, probe := .connectProbe }

/-- part_002 `waitUntilFree` (lines 201–203): delegates to
`waitUntilFreeOnHost` with host `"127.0.0.1"`. -/
def waitUntilFreeCfg (port retryTimeMs timeOutMs : JSVal) :
    Deferred Unit ⊕ SessionCfg :=
  waitUntilFreeOnHostCfg port (.str "127.0.0.1") retryTimeMs timeOutMs

/-- part_002 `waitUntilUsed` (lines 310–312): delegates to
`waitUntilUsedOnHost` with host `"127.0.0.1"`. -/
def waitUntilUsedCfg (port retryTimeMs timeOutMs : JSVal) :
    Deferred Unit ⊕ SessionCfg :=
  waitUntilUsedOnHostCfg port (.str "127.0.0.1") retryTimeMs timeOutMs

/-- Project the probe kind out of a started session. -/
def cfgProbe : Deferred Unit ⊕ SessionCfg → Option ProbeKind
  | .inl _ => none
  | .inr c => some c.probe

end TPU.P2

namespace TPU.P3

open TPU

/-- part_003 `check(port)` (lines 37–75), a bind-based probe, observed
at a point in time.  Validation (lines 42–43) rejects on an invalid
port but does NOT return, so the server is created and
`server.listen(port)` is issued regardless.  The `error` handler maps
`EADDRINUSE` to resolve `true` and rejects any other error verbatim;
the `listening` handler registers a `close` handler that resolves
`false` and then calls `server.close()` — so on a successful bind the
result only appears once the `close` event has been delivered
(`closeDelivered`).  The Q latch keeps the validation rejection as the
final settlement when the port was invalid. -/
def checkAt (port : JSVal) (bind : BindOutcome) (closeDelivered : Bool) :
    Deferred Bool × List Effect :=
  let d : Deferred Bool :=
    if isPort port then none
    else some (.rejected (.msg ("Invalid port: " ++ inspect port)))
  match bind with
  | .errored e =>
    if e.code = "EADDRINUSE" then
      (settle (.resolved true) d, [.listenOn port, .removeListeners])
    else
      (settle (.rejected (.sys e)) d, [.listenOn port, .removeListeners])
  | .listening =>
    if closeDelivered then
      (settle (.resolved false) d,
       [.listenOn port, .closeSocket, .removeListeners])
    else
      (d, [.listenOn port, .closeSocket])

/-- part_003 `waitUntilFree`, retry/timeout normalization (lines
96–100): the source tests `is.positiveInt(timeOutMs)` twice, so a
missing timeout receives 100 (the documented retry default) and the
documented 300 is never assigned; `retryTimeMs` is never normalized. -/
def normalizeFree (retryTimeMs timeOutMs : JSVal) : JSVal × JSVal :=
  let timeOutMs1 :=
    if isPositiveInt timeOutMs then timeOutMs else JSVal.num 100
  let timeOutMs2 :=
    if isPositiveInt timeOutMs1 then timeOutMs1 else JSVal.num 300
  (retryTimeMs, timeOutMs2)

/-- part_003 `waitUntilUsed`, retry/timeout normalization (lines
165–169): `if (!is.positiveInt(retryTimeMs)) timeOutMs = 100;` — a
missing retry interval overwrites `timeOutMs` with 100 (clobbering even
an explicitly supplied timeout) and leaves `retryTimeMs` untouched;
then `if (!is.positiveInt(timeOutMs)) timeOutMs = 300;`. -/
def normalizeUsed (retryTimeMs timeOutMs : JSVal) : JSVal × JSVal :=
  let timeOutMs1 :=
    if isPositiveInt retryTimeMs then timeOutMs else JSVal.num 100
  let timeOutMs2 :=
    if isPositiveInt timeOutMs1 then timeOutMs1 else JSVal.num 300
  (retryTimeMs, timeOutMs2)

/-- The configuration of a part_003 polling loop (no host argument). -/
structure P3Cfg where
  retryTimeMs : JSVal
  timeOutMs : JSVal
  desired : Bool
  probe : ProbeKind
  deriving DecidableEq, Repr

/-- part_003 `waitUntilFree` (lines 85–143) up to its loop: validation
rejects (and returns) on an invalid port; otherwise the loop repeatedly
calls `server.listen(port)` — the bind-based probe. -/
def waitUntilFreeCfg (port retryTimeMs timeOutMs : JSVal) :
    Deferred Unit ⊕ P3Cfg :=
  if isPort port = false then
    .inl (some (.rejected
      (.msg ("waitUntilFree: invalid port: " ++ inspect port))))
  else
    let n := normalizeFree retryTimeMs timeOutMs
    .inr { retryTimeMs := n.1, timeOutMs := n.2,
           desired := false, probe := .bindProbe }

/-- part_003 `waitUntilUsed` (lines 153–219) up to its loop: validation
rejects (and returns) on an invalid port; otherwise the loop repeatedly
creates a `net.Socket` and calls `client.connect({port: port})` — the
connect-based probe. -/
def waitUntilUsedCfg (port retryTimeMs timeOutMs : JSVal) :
    Deferred Unit ⊕ P3Cfg :=
  if isPort port = false then
    .inl (some (.rejected
      (.msg ("waitUntilListening: invalid port: " ++ inspect port))))
  else
    let n := normalizeUsed retryTimeMs timeOutMs
    .inr { retryTimeMs := n.1, timeOutMs := n.2,
           desired := true, probe := .connectProbe }

/-- Project the probe kind out of a started part_003 session. -/
def cfgProbe : Deferred Unit ⊕ P3Cfg → Option ProbeKind
  | .inl _ => none
  | .inr c => some c.probe

/-- Session state of part_003 `waitUntilFree` (lines 85–143):

* `done` — the `var done` flag, set by the deadline timer;
* `dfd` — the Q deferred returned to the caller;
* `intervalArmed` — the `setInterval` handle is live (not cleared);
* `timeoutArmed` — the one-shot deadline timer is live;
* `closePending` — the `listening` handler ran, registered the `close`
  handler and called `server.close()`. -/
structure FreeState where
  done : Bool
  dfd : Deferred Unit
  intervalArmed : Bool
  timeoutArmed : Bool
  closePending : Bool
  deriving DecidableEq, Repr

/-- Events the Node event loop can deliver to a part_003
`waitUntilFree` session. -/
inductive FreeEvent where
  | deadline
  | tick
  | bindErr (e : NodeErr)
  | listening
  | closed
  deriving DecidableEq, Repr

/-- The timeout rejection message of part_003 `waitUntilFree`
(line 107). -/
def freeTimeoutMsg (timeOutMs : Int) : String :=
  "waitUntilFree: timeout after " ++ toString timeOutMs ++ " ms."

/-- One event step of part_003 `waitUntilFree`:

* deadline fire (line 101): `done = true` — and nothing else; the
  session is NOT settled here;
* interval tick (lines 104–110): if `done`, clear the interval and
  reject with the timeout message; then (no early return)
  `server.listen(port)` is issued again;
* `error` with a code other than `EADDRINUSE` (lines 124–129):
  `cleanup()` and reject that error; `EADDRINUSE` is ignored (the next
  tick retries);
* `listening` (lines 131–140): clear both timers, register the `close`
  handler, `server.close()`;
* `close` delivered: resolve. -/
def freeStep (timeOutMs : Int) : FreeEvent → FreeState → FreeState
  | .deadline, s =>
    if s.timeoutArmed then { s with timeoutArmed := false, done := true }
    else s
  | .tick, s =>
    if s.intervalArmed then
      if s.done then
        { s with intervalArmed := false,
                 dfd := settle (.rejected (.msg (freeTimeoutMsg timeOutMs)))
                   s.dfd }
      else s
    else s
  | .bindErr e, s =>
    if e.code = "EADDRINUSE" then s
    else
      { s with intervalArmed := false, timeoutArmed := false,
               dfd := settle (.rejected (.sys e)) s.dfd }
  | .listening, s =>
    { s with intervalArmed := false, timeoutArmed := false,
             closePending := true }
  | .closed, s =>
    if s.closePending then
      { s with dfd := settle (.resolved ()) s.dfd }
    else s

/-- part_003 `waitUntilFree` session right after the function returns
its promise (valid port): both timers armed, nothing settled, no bind
issued yet (the first `server.listen` happens on the first tick). -/
def freeInit : FreeState :=
  { done := false, dfd := none, intervalArmed := true,
    timeoutArmed := true, closePending := false }

/-- Session state of part_003 `waitUntilUsed` (lines 153–219);
`outstanding` counts connect attempts (`client.connect`) whose outcome
has not been delivered yet. -/
structure UsedState where
  done : Bool
  dfd : Deferred Unit
  intervalArmed : Bool
  timeoutArmed : Bool
  outstanding : Nat
  deriving DecidableEq, Repr

/-- Events the Node event loop can deliver to a part_003
`waitUntilUsed` session. -/
inductive UsedEvent where
  | deadline
  | tick
  | connected
  | connErr (e : NodeErr)
  deriving DecidableEq, Repr

/-- One event step of part_003 `waitUntilUsed`:

* deadline fire (lines 171–172): `done = true` only;
* interval tick (lines 174–216): if `done`, `cleanUp()` (clearing both
  timers) and reject with the waitUntilListening timeout message — and then, with
  no early return, a NEW socket is created and `client.connect` issued;
  when not `done` a new socket is created and connected as well,
  regardless of whether a previous connect attempt is still in flight;
* `connect` on some outstanding socket (lines 183–187): resolve, then
  `cleanUp()`;
* `error` on some outstanding socket (lines 189–195): a code other than
  `ECONNREFUSED` runs `cleanUp()` and rejects; `ECONNREFUSED` is only
  logged. -/
def usedStep : UsedEvent → UsedState → UsedState
  | .deadline, s =>
    if s.timeoutArmed then { s with timeoutArmed := false, done := true }
    else s
  | .tick, s =>
    if s.intervalArmed then
      if s.done then
        { s with intervalArmed := false, timeoutArmed := false,
                 dfd := settle
                   (.rejected (.msg "waitUntilListening: timeout.")) s.dfd,
                 outstanding := s.outstanding + 1 }
      else { s with outstanding := s.outstanding + 1 }
    else s
  | .connected, s =>
    if s.outstanding = 0 then s
    else
      { s with outstanding := s.outstanding - 1,
               intervalArmed := false, timeoutArmed := false,
               dfd := settle (.resolved ()) s.dfd }
  | .connErr e, s =>
    if s.outstanding = 0 then s
    else
      if e.code = "ECONNREFUSED" then
        { s with outstanding := s.outstanding - 1 }
      else
        { s with outstanding := s.outstanding - 1,
                 intervalArmed := false, timeoutArmed := false,
                 dfd := settle (.rejected (.sys e)) s.dfd }

/-- part_003 `waitUntilUsed` session right after the function returns
its promise (valid port): both timers armed, nothing settled, no
connect attempt in flight yet (the first one happens on the first
tick). -/
def usedInit : UsedState :=
  { done := false, dfd := none, intervalArmed := true,
    timeoutArmed := true, outstanding := 0 }

end TPU.P3

namespace TPU.IndexJs

open TPU

/-- The `index.js` port validation (line 38):
`!is.positiveInt(port) || port > 65535` — valid means a positive
integer up to 65535 (note: unlike `is.port`, this rejects 0). -/
def isValidPort : JSVal → Bool
  | .num n => 0 < n && n ≤ 65535
  | _ => false

/-- The `index.js` `check(port)` (lines 33–61), the earliest bind-based
probe, observed at a point in time.  Validation (lines 38–39) rejects
with `"Invalid port: " + port` (plain string concatenation) but does
NOT return: the server is created and `server.listen(port)` is issued
regardless.  `EADDRINUSE` resolves `true`, other errors reject
verbatim, and a successful bind resolves `false` from the `close`
handler after `server.close()`.  There is no listener cleanup in this
version. -/
def check (port : JSVal) (bind : BindOutcome) (closeDelivered : Bool) :
    Deferred Bool × List Effect :=
  let d : Deferred Bool :=
    if isValidPort port then none
    else some (.rejected (.msg ("Invalid port: " ++ jsToString port)))
  match bind with
  | .errored e =>
    if e.code = "EADDRINUSE" then
      (settle (.resolved true) d, [.listenOn port])
    else
      (settle (.rejected (.sys e)) d, [.listenOn port])
  | .listening =>
    if closeDelivered then
      (settle (.resolved false) d, [.listenOn port, .closeSocket])
    else
      (d, [.listenOn port])

end TPU.IndexJs

namespace TPU

/-- C1: for every part_002 polling session (waitUntilFreeOnHost,
waitUntilUsedOnHost, and the no-host wrappers that delegate to them),
exactly one settlement occurs per invocation: (i) once the deferred is
settled, no further event changes its value (the Q latch makes every
later settlement attempt a no-op, covering the race between the
deadline timer and an in-flight probe); (ii) in every reachable state
the session is either settled or still has its deadline timer armed, so
a settlement always remains scheduled; (iii) the deadline firing always
leaves the session settled; (iv) a probe result that arrives after the
deadline has fired (the timedout flag is set) is discarded: it changes
neither the deferred nor the timers. -/
theorem wait_session_exactly_one_settlement (desired : Bool)
    (es : List P2.WEvent) (v : Settled Unit) :
    (∀ s : P2.WaitState, s.dfd = some v →
      (P2.run desired es s).dfd = some v)
    ∧ ((P2.run desired es P2.initState).deadlineArmed = true
        ∨ ((P2.run desired es P2.initState).dfd).isSome = true)
    ∧ (∀ s : P2.WaitState, s.deadlineArmed = true →
        ((P2.step desired .deadline s).dfd).isSome = true)
    ∧ (∀ (s : P2.WaitState) (r : Settled Bool), s.timedout = true →
        (P2.step desired (.probe r) s).dfd = s.dfd
        ∧ (P2.step desired (.probe r) s).retryArmed = s.retryArmed
        ∧ (P2.step desired (.probe r) s).deadlineArmed = s.deadlineArmed) := by
  refine ⟨?_, ?_, ?_, ?_⟩
  · intro s h
    exact P2.run_dfd_frozen desired es s v h
  · exact (P2.run_inv desired es P2.initState P2.initState_inv).1
  · intro s h
    simp [P2.step, P2.cleanUpTimers, h, settle_isSome]
  · intro s r h
    obtain ⟨td, d, da, ra, out⟩ := s
    cases out <;> simp_all [P2.step]

/-- Closed instance of the C1 theorem: an already-settled session is
unchanged by a later deadline firing. -/
theorem wait_session_exactly_one_settlement_witness :
    (P2.run false [P2.WEvent.deadline]
      { timedout := false, dfd := some (Settled.resolved ()),
        deadlineArmed := true, retryArmed := false,
        outstanding := 1 }).dfd = some (Settled.resolved ()) :=
  (wait_session_exactly_one_settlement false [P2.WEvent.deadline]
    (Settled.resolved ())).1 _ rfl

/-- C2 counterexample: in part_003 waitUntilFree (a polling session
with valid inputs), the deadline firing does NOT perform the
settlement: it only sets the done flag, and the timeout rejection is
performed at the next retry tick — refuting the claim that for every
polling session the deadline firing itself settles. -/
theorem deadline_fire_deferred_settlement_counterexample :
    (P3.freeStep 1000 .deadline P3.freeInit).done = true
    ∧ (P3.freeStep 1000 .deadline P3.freeInit).dfd = none
    ∧ (P3.freeStep 1000 .tick
        (P3.freeStep 1000 .deadline P3.freeInit)).dfd
      = some (.rejected (.msg "waitUntilFree: timeout after 1000 ms.")) := by
  refine ⟨rfl, rfl, rfl⟩

/-- C2 amended: in the part_002 sessions (waitUntilFreeOnHost,
waitUntilUsedOnHost and their no-host wrappers) the deadline firing
itself marks the session timed out, cancels any pending retry timer,
and settles with the timeout Error, which is distinguishable from probe
errors (a different constructor) and from validation errors (a
different message); in the part_003 no-host variants the deadline
firing only marks the session timed out and the timeout rejection is
performed by the next retry tick. -/
theorem deadline_fires_settles_amended (desired : Bool)
    (s : P2.WaitState) (h : s.deadlineArmed = true) :
    (P2.step desired .deadline s).timedout = true
    ∧ (P2.step desired .deadline s).retryArmed = false
    ∧ (P2.step desired .deadline s).dfd
        = settle (.rejected (.msg "timeout")) s.dfd
    ∧ (s.dfd = none →
        (P2.step desired .deadline s).dfd
          = some (.rejected (.msg "timeout")))
    ∧ (∀ e : NodeErr, Err.msg "timeout" ≠ Err.sys e)
    ∧ (∀ p : JSVal, "invalid port: " ++ inspect p ≠ "timeout")
    ∧ (∀ t : Int, (P3.freeStep t .deadline P3.freeInit).dfd = none
        ∧ (P3.freeStep t .tick (P3.freeStep t .deadline P3.freeInit)).dfd
            = some (.rejected (.msg (P3.freeTimeoutMsg t)))) := by
  refine ⟨?_, ?_, ?_, ?_, ?_, ?_, ?_⟩
  · simp [P2.step, P2.cleanUpTimers, h]
  · simp [P2.step, P2.cleanUpTimers, h]
  · simp [P2.step, P2.cleanUpTimers, h]
  · intro hd
    simp [P2.step, P2.cleanUpTimers, h, hd, settle]
  · intro e he
    cases he
  · intro p hp
    have hl := congrArg String.length hp
    rw [String.length_append] at hl
    have h1 : ("invalid port: " : String).length = 14 := rfl
    have h2 : ("timeout" : String).length = 7 := rfl
    omega
  · intro t
    refine ⟨rfl, rfl⟩

/-- Closed instance of the amended C2 theorem: the deadline firing on a
fresh part_002 session settles it with the timeout rejection. -/
theorem deadline_fires_settles_amended_witness :
    (P2.step false .deadline P2.initState).dfd
      = some (Settled.rejected (.msg "timeout")) :=
  ((deadline_fires_settles_amended false P2.initState rfl).2.2.2.1) rfl

/-- C3: evaluation of the retry/timeout normalization at absent
arguments.  In part_002 waitUntilFreeOnHost a missing timeout is
substituted with RETRYTIME (200, the retry default) instead of TIMEOUT
(2000), and a missing retry interval is left unsubstituted — while
waitUntilUsedOnHost applies both defaults independently as the claim
states.  In part_003, waitUntilUsed overwrites even an explicitly
supplied timeout (4000) with 100 when the retry interval is missing,
and waitUntilFree gives a missing timeout the documented retry default
100 instead of the documented 300; in both the missing retry interval
is left unsubstituted. -/
theorem retry_timeout_defaults_bug_eval :
    P2.normalizeFreeOnHost JSVal.undef JSVal.undef
      = (JSVal.undef, JSVal.num RETRYTIME)
    ∧ P2.normalizeUsedOnHost JSVal.undef JSVal.undef
      = (JSVal.num RETRYTIME, JSVal.num TIMEOUT)
    ∧ P3.normalizeUsed JSVal.undef (JSVal.num 4000)
      = (JSVal.undef, JSVal.num 100)
    ∧ P3.normalizeFree JSVal.undef JSVal.undef
      = (JSVal.undef, JSVal.num 100) := by
  decide

/-- C4: for the part_002 connect-based check with a valid port, a
successful connection resolves true (InUse); a connection refused
(ECONNREFUSED) resolves false (Free); and any other connection error
rejects with that same error value, not reinterpreted. -/
theorem check_outcome_mapping (port host : JSVal) (e : NodeErr)
    (hp : isPort port = true) (he : e.code ≠ "ECONNREFUSED") :
    (P2.check port host .connected).1 = some (.resolved true)
    ∧ (P2.check port host (.errored ⟨"ECONNREFUSED"⟩)).1
        = some (.resolved false)
    ∧ (P2.check port host (.errored e)).1 = some (.rejected (.sys e)) := by
  refine ⟨?_, ?_, ?_⟩ <;> simp [P2.check, hp, he]

/-- Closed instance of the C4 theorem at port 44202, host 127.0.0.1
and the error code EHOSTUNREACH. -/
theorem check_outcome_mapping_witness :
    (P2.check (.num 44202) (.str "127.0.0.1") .connected).1
      = some (.resolved true) :=
  (check_outcome_mapping (.num 44202) (.str "127.0.0.1")
    ⟨"EHOSTUNREACH"⟩ (by decide) (by decide)).1

/-- C5: evaluation at the failing inputs.  In index.js, check(-1)
settles with the validation Error carrying the offending value, but the
code (missing an early return) still creates a server and issues
listen(-1): a probe I/O side effect on the validation-failure path.
The same slip is in the part_003 check at a wrongly-typed port.  The
part_002 check, by contrast, returns right after rejecting and issues
no socket operation. -/
theorem validation_failure_still_listens_eval :
    (IndexJs.check (.num (-1)) (.errored ⟨"EINVAL"⟩) false).1
      = some (.rejected (.msg "Invalid port: -1"))
    ∧ Effect.listenOn (.num (-1))
        ∈ (IndexJs.check (.num (-1)) (.errored ⟨"EINVAL"⟩) false).2
    ∧ (P3.checkAt (.str "hello") (.errored ⟨"EINVAL"⟩) false).1
      = some (.rejected (.msg "Invalid port: 'hello'"))
    ∧ Effect.listenOn (.str "hello")
        ∈ (P3.checkAt (.str "hello") (.errored ⟨"EINVAL"⟩) false).2
    ∧ (P2.check (.num (-1)) .undef .connected).2
      = [Effect.deliverSettlement] := by
  decide

/-- C6 counterexample: in part_003 waitUntilUsed the probes are NOT
sequential: the interval handler creates and connects a new socket on
every tick without waiting for the previous attempt, so after two ticks
with no completion in between, two connect probes are outstanding at
once (and the session is still unsettled) — refuting the claim that at
most one probe is outstanding at any time in every polling session. -/
theorem used_probes_accumulate_counterexample :
    (P3.usedStep .tick (P3.usedStep .tick P3.usedInit)).outstanding = 2
    ∧ (P3.usedStep .tick (P3.usedStep .tick P3.usedInit)).dfd = none := by
  decide

/-- C6 amended: in the part_002 sessions (waitUntilFreeOnHost,
waitUntilUsedOnHost and their no-host wrappers) probes are strictly
sequential — in every reachable state at most one probe is outstanding,
and none is outstanding while a retry timer is pending, because the
next check() is only issued from the completion handler of the previous
one; in the interval-driven part_003 waitUntilUsed a new probe is
issued on every tick regardless of completion, so probes can
accumulate. -/
theorem probes_sequential_amended (desired : Bool)
    (es : List P2.WEvent) :
    (P2.run desired es P2.initState).outstanding ≤ 1
    ∧ ((P2.run desired es P2.initState).retryArmed = true →
        (P2.run desired es P2.initState).outstanding = 0)
    ∧ (P3.usedStep .tick (P3.usedStep .tick P3.usedInit)).outstanding
        = 2 := by
  have h := P2.run_inv desired es P2.initState P2.initState_inv
  exact ⟨h.2.1, h.2.2.1, by decide⟩

/-- Closed instance of the amended C6 theorem: after the first probe of
a free-wait session reports in-use, a retry is pending and no probe is
outstanding. -/
theorem probes_sequential_amended_witness :
    (P2.run false [P2.WEvent.probe (.resolved true)]
      P2.initState).outstanding = 0 :=
  (probes_sequential_amended false
    [P2.WEvent.probe (.resolved true)]).2.1 (by decide)

/-- C7 counterexample: the part_002 connect-based check, on a
successful connection (port 44202 in use), resolves true but its
cleanUp only removes the connect/error listeners — no branch of the
function ever closes or destroys the socket it opened, refuting the
claim that the probe closes its socket regardless of outcome. -/
theorem check_socket_not_closed_counterexample :
    (P2.check (.num 44202) (.str "127.0.0.1") .connected).1
      = some (.resolved true)
    ∧ Effect.closeSocket
        ∉ (P2.check (.num 44202) (.str "127.0.0.1") .connected).2 := by
  decide

/-- C7 amended: for every connect-based probe with a valid port,
regardless of outcome, the probe removes the event subscriptions it
attached during the synchronous handler turn, strictly before the
settlement becomes observable to the caller (Q delivers then-callbacks
on a later tick, the final deliverSettlement entry); but the probe
never closes the socket it opened. -/
theorem check_listener_cleanup_amended (port host : JSVal)
    (conn : ConnectOutcome) (hp : isPort port = true) :
    Effect.removeListeners ∈ (P2.check port host conn).2
    ∧ (P2.check port host conn).2.getLast? = some Effect.deliverSettlement
    ∧ Effect.closeSocket ∉ (P2.check port host conn).2 := by
  cases conn with
  | connected => exact ⟨by simp [P2.check, hp], by simp [P2.check, hp], by simp [P2.check, hp]⟩
  | errored e =>
    by_cases he : e.code = "ECONNREFUSED" <;>
      exact ⟨by simp [P2.check, hp, he], by simp [P2.check, hp, he],
             by simp [P2.check, hp, he]⟩

/-- Closed instance of the amended C7 theorem at port 44202. -/
theorem check_listener_cleanup_amended_witness :
    Effect.removeListeners
      ∈ (P2.check (.num 44202) (.str "127.0.0.1") .connected).2 :=
  (check_listener_cleanup_amended (.num 44202) (.str "127.0.0.1")
    .connected (by decide)).1

/-- C8: for the bind-based probes with a valid port: a bind failing
with EADDRINUSE resolves true (InUse); any other bind error rejects
with that error; a successful bind leaves the promise pending until the
close event has been delivered, and only then resolves false (Free),
the listening socket having been closed.  The part_003 check is stated
unconditionally; the index.js original behaves the same under its own
(stricter) validation. -/
theorem bind_check_outcome_mapping (port : JSVal) (e : NodeErr)
    (cd : Bool) (hp : isPort port = true) (he : e.code ≠ "EADDRINUSE") :
    (P3.checkAt port (.errored ⟨"EADDRINUSE"⟩) cd).1
      = some (.resolved true)
    ∧ (P3.checkAt port (.errored e) cd).1 = some (.rejected (.sys e))
    ∧ (P3.checkAt port .listening false).1 = none
    ∧ (P3.checkAt port .listening true).1 = some (.resolved false)
    ∧ Effect.closeSocket ∈ (P3.checkAt port .listening true).2
    ∧ (IndexJs.isValidPort port = true →
        (IndexJs.check port (.errored ⟨"EADDRINUSE"⟩) cd).1
          = some (.resolved true)
        ∧ (IndexJs.check port (.errored e) cd).1
          = some (.rejected (.sys e))
        ∧ (IndexJs.check port .listening false).1 = none
        ∧ (IndexJs.check port .listening true).1
          = some (.resolved false)) := by
  refine ⟨?_, ?_, ?_, ?_, ?_, ?_⟩
  · simp [P3.checkAt, hp, settle]
  · simp [P3.checkAt, hp, he, settle]
  · simp [P3.checkAt, hp]
  · simp [P3.checkAt, hp, settle]
  · simp [P3.checkAt, hp]
  · intro hv
    refine ⟨?_, ?_, ?_, ?_⟩ <;> simp [IndexJs.check, hv, he, settle]

/-- Closed instance of the C8 theorem at port 44202 and error code
EACCES. -/
theorem bind_check_outcome_mapping_witness :
    (IndexJs.check (.num 44202) (.errored ⟨"EADDRINUSE"⟩) false).1
      = some (.resolved true) :=
  ((bind_check_outcome_mapping (.num 44202) ⟨"EACCES"⟩ false
    (by decide) (by decide)).2.2.2.2.2 (by decide)).1

/-- C9 counterexample: the part_002 no-host variants waitUntilFree and
waitUntilUsed delegate to the OnHost functions with host 127.0.0.1,
whose loop invokes the connect-based check — at concrete valid inputs
their session probe kind is the connect probe, not the bind probe,
refuting the claim that every no-host variant polls with the bind-based
probe. -/
theorem free_uses_connect_probe_counterexample :
    P2.cfgProbe (P2.waitUntilFreeCfg (.num 44203) (.num 500) (.num 4000))
      = some ProbeKind.connectProbe
    ∧ P2.cfgProbe (P2.waitUntilUsedCfg (.num 44204) (.num 500) (.num 4000))
      = some ProbeKind.connectProbe
    ∧ ProbeKind.connectProbe ≠ ProbeKind.bindProbe := by
  decide

/-- C9 amended: for every invocation with a valid port, the part_002
no-host variants delegate to the host-aware variants and therefore poll
with the connect-based probe; in part_003, waitUntilFree polls with the
bind-based probe while waitUntilUsed polls with the connect-based
probe; the two probe kinds remain distinct. -/
theorem probe_kinds_amended (port r t : JSVal)
    (hp : isPort port = true) :
    P2.cfgProbe (P2.waitUntilFreeCfg port r t)
      = some ProbeKind.connectProbe
    ∧ P2.cfgProbe (P2.waitUntilUsedCfg port r t)
      = some ProbeKind.connectProbe
    ∧ P3.cfgProbe (P3.waitUntilFreeCfg port r t)
      = some ProbeKind.bindProbe
    ∧ P3.cfgProbe (P3.waitUntilUsedCfg port r t)
      = some ProbeKind.connectProbe
    ∧ ProbeKind.bindProbe ≠ ProbeKind.connectProbe := by
  refine ⟨?_, ?_, ?_, ?_, by decide⟩ <;>
    simp [P2.cfgProbe, P2.waitUntilFreeCfg, P2.waitUntilUsedCfg,
      P2.waitUntilFreeOnHostCfg, P2.waitUntilUsedOnHostCfg,
      P3.cfgProbe, P3.waitUntilFreeCfg, P3.waitUntilUsedCfg, hp]

/-- Closed instance of the amended C9 theorem at port 44203. -/
theorem probe_kinds_amended_witness :
    P2.cfgProbe (P2.waitUntilFreeCfg (.num 44203) .undef .undef)
      = some ProbeKind.connectProbe :=
  (probe_kinds_amended (.num 44203) .undef .undef (by decide)).1

/-- C10: every part_002 exported operation is a total function of its
inputs into a returned promise (the embedding has no thrown
alternative, matching the source, which contains no throw and returns
deferred.promise on every path): for every input with an invalid port,
check and all four wait operations deliver the validation failure,
carrying the offending raw value, solely as a rejection of the returned
promise; for every valid port the wait operations return a running
session. -/
theorem api_promise_discipline (port host r t : JSVal)
    (conn : ConnectOutcome) :
    (isPort port = false →
      (P2.check port host conn).1
        = some (.rejected (.msg ("invalid port: " ++ inspect port)))
      ∧ P2.waitUntilFreeOnHostCfg port host r t
        = .inl (some (.rejected
            (.msg ("invalid port: " ++ inspect port))))
      ∧ P2.waitUntilUsedOnHostCfg port host r t
        = .inl (some (.rejected
            (.msg ("invalid port: " ++ inspect port))))
      ∧ P2.waitUntilFreeCfg port r t
        = .inl (some (.rejected
            (.msg ("invalid port: " ++ inspect port))))
      ∧ P2.waitUntilUsedCfg port r t
        = .inl (some (.rejected
            (.msg ("invalid port: " ++ inspect port)))))
    ∧ (isPort port = true →
      (∃ c, P2.waitUntilFreeOnHostCfg port host r t = .inr c)
      ∧ (∃ c, P2.waitUntilUsedOnHostCfg port host r t = .inr c)
      ∧ (∃ c, P2.waitUntilFreeCfg port r t = .inr c)
      ∧ (∃ c, P2.waitUntilUsedCfg port r t = .inr c)) := by
  constructor
  · intro h
    refine ⟨?_, ?_, ?_, ?_, ?_⟩ <;>
      simp [P2.check, P2.waitUntilFreeOnHostCfg, P2.waitUntilUsedOnHostCfg,
        P2.waitUntilFreeCfg, P2.waitUntilUsedCfg, h]
  · intro h
    refine ⟨?_, ?_, ?_, ?_⟩ <;>
      simp [P2.waitUntilFreeOnHostCfg, P2.waitUntilUsedOnHostCfg,
        P2.waitUntilFreeCfg, P2.waitUntilUsedCfg, h]

/-- Closed instance of the C10 theorem: a wrongly-typed port settles
check by rejection with the inspected raw value in the payload. -/
theorem api_promise_discipline_witness :
    (P2.check (.str "hello") .undef .connected).1
      = some (Settled.rejected
          (.msg ("invalid port: " ++ inspect (.str "hello")))) :=
  ((api_promise_discipline (.str "hello") .undef .undef .undef
    .connected).1 (by decide)).1

end TPU
